import Mathlib

/-!
Verification of the anexec Execution Runtime Core against its
natural-language specification.  The definitions below are a shallow
embedding of the C++ sources:

  * src/android/activity.cpp  (component lifecycle state machine)
  * src/android/api.cpp       (capability gateway and rate limiter)
  * src/core/runtime.cpp      (runtime boot / class registry)
  * src/core/executor.cpp     (package loader and resource teardown)

Machine time points are modelled as natural numbers (milliseconds);
pointers as natural numbers with 0 for nullptr.  Exceptions are
modelled as explicit fault values carrying the message of the
underlying std::exception.
-/

namespace Anexec

/-! ## Component lifecycle (src/android/activity.cpp) -/

/-- The `Activity::Impl::LifecycleState::Value` enumeration.  The source
pairs the enum with a transition timestamp; no claim concerns the
timestamp, so only the enum value is modelled. -/
inductive LifecycleState where
  | Created
  | Started
  | Resumed
  | Paused
  | Stopped
  | Destroyed
  deriving DecidableEq

/-- The `Activity::SavedState` structure from activity.h:
a timestamp, ordered key/value pairs, the finishing flag and the
focus flag. -/
structure SavedState where
  timestamp : Nat
  data : List (String × String)
  is_finishing : Bool
  has_focus : Bool
  deriving DecidableEq

/-- The private fields of `Activity::Impl`, in source declaration order.
`system_services` keeps the keys of the service map (every mapped value
in the source is nullptr).  `create_time` is the construction
timestamp. -/
structure ActivityImpl where
  package_name : String
  activity_name : String
  state : LifecycleState
  system_services : List String
  is_finishing : Bool
  lifecycle_log : List String
  create_time : Nat
  has_window_focus : Bool
  saved_state : SavedState
  deriving DecidableEq

/-- `Activity::Impl::logLifecycleEvent`: appends a formatted record to
the lifecycle log (the cout side effect is not modelled). -/
def logEvent (a : ActivityImpl) (event : String) : ActivityImpl :=
  { a with lifecycle_log :=
      a.lifecycle_log ++ ["Activity " ++ a.activity_name ++ ": " ++ event] }

/-- `Activity::Impl::initializeSystemServices` (renamed: populates the
five service keys, each mapped to nullptr, then logs). -/
def initSystemServices (a : ActivityImpl) : ActivityImpl :=
  let a1 := { a with system_services :=
      ["window", "layout_inflater", "activity", "input_method", "location"] }
  logEvent a1 "System services initialized"

/-- `Activity::Impl::cleanupSystemServices`: clears the service map and
logs. -/
def cleanupSystemServices (a : ActivityImpl) : ActivityImpl :=
  logEvent { a with system_services := [] } "System services cleaned up"

/-- `Activity::Impl::onCreate`: guarded on `state == Created`; logs,
initialises the system services, and writes `Created` back. -/
def ActivityImpl.onCreate (a : ActivityImpl) : ActivityImpl :=
  if a.state != LifecycleState.Created then a
  else
    let a1 := logEvent a "onCreate called"
    let a2 := initSystemServices a1
    { a2 with state := LifecycleState.Created }

/-- `Activity::Impl::onStart`: guarded on `Created` or `Stopped`. -/
def ActivityImpl.onStart (a : ActivityImpl) : ActivityImpl :=
  if a.state != LifecycleState.Created && a.state != LifecycleState.Stopped then a
  else
    let a1 := logEvent a "onStart called"
    { a1 with state := LifecycleState.Started }

/-- `Activity::Impl::onResume`: guarded on `Started` or `Paused`. -/
def ActivityImpl.onResume (a : ActivityImpl) : ActivityImpl :=
  if a.state != LifecycleState.Started && a.state != LifecycleState.Paused then a
  else
    let a1 := logEvent a "onResume called"
    { a1 with state := LifecycleState.Resumed }

/-- `Activity::Impl::onPause`: guarded on `Resumed`. -/
def ActivityImpl.onPause (a : ActivityImpl) : ActivityImpl :=
  if a.state != LifecycleState.Resumed then a
  else
    let a1 := logEvent a "onPause called"
    { a1 with state := LifecycleState.Paused }

/-- `Activity::Impl::onStop`: guarded on `Paused`. -/
def ActivityImpl.onStop (a : ActivityImpl) : ActivityImpl :=
  if a.state != LifecycleState.Paused then a
  else
    let a1 := logEvent a "onStop called"
    { a1 with state := LifecycleState.Stopped }

/-- `Activity::Impl::onDestroy`: guarded on `state != Destroyed`; logs,
clears the service map, and writes `Destroyed`. -/
def ActivityImpl.onDestroy (a : ActivityImpl) : ActivityImpl :=
  if a.state == LifecycleState.Destroyed then a
  else
    let a1 := logEvent a "onDestroy called"
    let a2 := cleanupSystemServices a1
    { a2 with state := LifecycleState.Destroyed }

/-- `Activity::Impl::onSaveInstanceState`: copies `saved_state` into the
out parameter, then overwrites its timestamp with the current time and
its two flags with the live flags.  Returns the produced snapshot
together with the (logged) instance. -/
def ActivityImpl.onSaveInstanceState (a : ActivityImpl) (now : Nat) :
    SavedState × ActivityImpl :=
  let a1 := logEvent a "Saving instance state"
  ({ a1.saved_state with
      timestamp := now
      is_finishing := a1.is_finishing
      has_focus := a1.has_window_focus }, a1)

/-- `Activity::Impl::onRestoreInstanceState`: stores the snapshot and
sets the window focus flag from it.  The finishing flag and the
lifecycle state are not touched. -/
def ActivityImpl.onRestoreInstanceState (a : ActivityImpl) (s : SavedState) :
    ActivityImpl :=
  let a1 := logEvent a "Restoring instance state"
  { a1 with saved_state := s, has_window_focus := s.has_focus }

/-- `Activity::Impl::onWindowFocusChanged`. -/
def ActivityImpl.onWindowFocusChanged (a : ActivityImpl) (hasFocus : Bool) :
    ActivityImpl :=
  let a1 := { a with has_window_focus := hasFocus }
  logEvent a1 (if hasFocus then "Window focus changed: gained focus"
               else "Window focus changed: lost focus")

/-- `Activity::Impl::startActivity`: only logs the intent action. -/
def ActivityImpl.startActivity (a : ActivityImpl) (action : String) :
    ActivityImpl :=
  logEvent a ("Starting new activity: " ++ action)

/-- `Activity::Impl::finish`: if not already finishing, sets the sticky
finishing flag, logs, and invokes onPause, onStop, onDestroy in
sequence (each re-checking its own guard). -/
def ActivityImpl.finish (a : ActivityImpl) : ActivityImpl :=
  if a.is_finishing then a
  else
    let a1 := logEvent { a with is_finishing := true } "Activity finishing"
    a1.onPause.onStop.onDestroy

/-- The six public lifecycle entry points of `Activity`. -/
inductive LifecycleCall where
  | create
  | start
  | resume
  | pause
  | stop
  | destroy
  deriving DecidableEq

/-- Dispatches one lifecycle call to the corresponding method. -/
def applyCall (a : ActivityImpl) : LifecycleCall → ActivityImpl
  | .create => a.onCreate
  | .start => a.onStart
  | .resume => a.onResume
  | .pause => a.onPause
  | .stop => a.onStop
  | .destroy => a.onDestroy

/-- Every state-affecting public operation of `Activity` (used to
characterise the reachable instance states). -/
inductive ActivityOp where
  | lcall (c : LifecycleCall)
  | saveState (now : Nat)
  | restoreState (s : SavedState)
  | focusChanged (hasFocus : Bool)
  | startNew (action : String)
  | finishCall

/-- Dispatches one public operation. -/
def applyOp (a : ActivityImpl) : ActivityOp → ActivityImpl
  | .lcall c => applyCall a c
  | .saveState now => (a.onSaveInstanceState now).2
  | .restoreState s => a.onRestoreInstanceState s
  | .focusChanged f => a.onWindowFocusChanged f
  | .startNew act => a.startActivity act
  | .finishCall => a.finish

/-- The `Activity::Impl` constructor: fixed package and activity names,
state `Created`, flags cleared, empty log plus the construction record.
Construction time is modelled as 0. -/
def activityInit : ActivityImpl :=
  logEvent
    { package_name := "com.example.app"
      activity_name := "MainActivity"
      state := LifecycleState.Created
      system_services := []
      is_finishing := false
      lifecycle_log := []
      create_time := 0
      has_window_focus := false
      saved_state :=
        { timestamp := 0, data := [], is_finishing := false, has_focus := false } }
    "Constructed"

/-- From the spec (section 4.2): the guard column of the transition
table.  This definition follows the specification text, to be compared
with the source-derived `applyCall`. -/
def lifecycleGuardSpec (s : LifecycleState) : LifecycleCall → Bool
  | .create => s == LifecycleState.Created
  | .start => s == LifecycleState.Created || s == LifecycleState.Stopped
  | .resume => s == LifecycleState.Started || s == LifecycleState.Paused
  | .pause => s == LifecycleState.Resumed
  | .stop => s == LifecycleState.Paused
  | .destroy => s != LifecycleState.Destroyed

/-- From the spec (section 4.2): the resulting-state column of the
transition table. -/
def lifecycleTargetSpec : LifecycleCall → LifecycleState
  | .create => LifecycleState.Created
  | .start => LifecycleState.Started
  | .resume => LifecycleState.Resumed
  | .pause => LifecycleState.Paused
  | .stop => LifecycleState.Stopped
  | .destroy => LifecycleState.Destroyed

/-- Invariant of reachable activity instances: once the sticky
finishing flag is set, the instance is destroyed. -/
def ActInv (a : ActivityImpl) : Prop :=
  a.is_finishing = true → a.state = LifecycleState.Destroyed

/-! ## Capability gateway (src/android/api.cpp) -/

/-- `anexec::APIResponse` from api.h: success flag, optional data,
optional error string (both default to empty). -/
structure APIResponse where
  success : Bool
  data : String := ""
  error : String := ""
  deriving DecidableEq

/-- `anexec::APIRequest` from api.h, minus the completion callback:
the callback is modelled by collecting the responses delivered to it
(see `CallResult.delivered`). -/
structure APIRequest where
  method : String
  params : List (String × String)

/-- Association-list update modelling `std::map::operator[] =` on a
string-keyed map: replaces the value under an existing key, otherwise
appends the pair. -/
def mapSet {α : Type} : List (String × α) → String → α → List (String × α)
  | [], k, v => [(k, v)]
  | (k0, v0) :: rest, k, v =>
      if k0 = k then (k, v) :: rest else (k0, v0) :: mapSet rest k v

/-- Association-list lookup modelling `std::map::find`. -/
def mapFind {α : Type} : List (String × α) → String → Option α
  | [], _ => none
  | (k0, v0) :: rest, k => if k0 = k then some v0 else mapFind rest k

/-- The two mutex-guarded rate-limiter fields of `API::Impl`:
`api_calls_count` and `last_rate_reset` (milliseconds). -/
structure RateLimiter where
  api_calls_count : Nat
  last_rate_reset : Nat
  deriving DecidableEq

/-- The `MAX_API_CALLS_PER_SECOND` constant of `API::Impl`. -/
def MAX_API_CALLS_PER_SECOND : Nat := 1000

/-- `API::Impl::checkRateLimit`.  Time points are in milliseconds, so
the source's `duration_cast` to whole seconds is division by 1000
(truncating, and a clock running backwards truncates to 0 just as a
negative `count()` fails the `>= 1` test).  If at least one full second
has elapsed since the last reset, the counter resets and the window
restarts; the call is admitted and counted only while the counter is
below capacity. -/
def checkRateLimit (rl : RateLimiter) (now : Nat) : Bool × RateLimiter :=
  let rl1 := if (now - rl.last_rate_reset) / 1000 ≥ 1 then
      { api_calls_count := 0, last_rate_reset := now }
    else rl
  if rl1.api_calls_count ≥ MAX_API_CALLS_PER_SECOND then (false, rl1)
  else (true, { rl1 with api_calls_count := rl1.api_calls_count + 1 })

/-- Runs a sequence of rate-limited calls at the given time points;
returns whether all were admitted, with the final limiter state. -/
def rateRun (rl : RateLimiter) (ts : List Nat) : Bool × RateLimiter :=
  ts.foldl (fun acc t =>
    let r := checkRateLimit acc.2 t
    (acc.1 && r.1, r.2)) (true, rl)

/-- Outcome of running a handler body: the responses it delivered to
the request callback, and—if it raised a `std::exception`—the fault
message. -/
inductive HandlerResult where
  | ok (emitted : List APIResponse)
  | fault (emitted : List APIResponse) (msg : String)

/-- A registered handler.  The three built-in handlers of
`API::Impl::registerDefaultHandlers` are interpreted against the
gateway state by `runHandler`; externally registered handlers are
modelled as pure functions of the request (they cannot reach the
private gateway state). -/
inductive HandlerCode where
  | getApiLevel
  | checkPermission
  | registerNativeMethod
  | user (f : APIRequest → HandlerResult)

/-- The fields of `API::Impl` and its nested `APIState` (mutexes are
not modelled; execution is sequential).  `APILevel` values are their
numeric SDK levels.  Native-function pointers are numeric tokens. -/
structure APIImpl where
  initialized : Bool
  package_name : String
  version_name : String
  version_code : Int
  min_sdk_level : Nat
  target_sdk_level : Nat
  native_functions : List (String × Nat)
  handlers : List (String × HandlerCode)
  rate : RateLimiter

/-- `API::Impl::registerHandler`: last writer wins. -/
def registerHandler (a : APIImpl) (name : String) (h : HandlerCode) : APIImpl :=
  { a with handlers := mapSet a.handlers name h }

/-- The `API::Impl` constructor: uninitialised state with default SDK
levels (ANDROID_10 = 29, ANDROID_13 = 33), the three default handlers
registered, and the rate window started at construction time. -/
def apiMk (now : Nat) : APIImpl :=
  { initialized := false
    package_name := ""
    version_name := ""
    version_code := 0
    min_sdk_level := 29
    target_sdk_level := 33
    native_functions := []
    handlers :=
      mapSet (mapSet (mapSet [] "getApiLevel" HandlerCode.getApiLevel)
        "checkPermission" HandlerCode.checkPermission)
        "registerNativeMethod" HandlerCode.registerNativeMethod
    rate := { api_calls_count := 0, last_rate_reset := now } }

/-- Interprets a handler against the gateway state.  Built-ins mirror
`handleGetApiLevel`, `handleCheckPermission` and
`handleRegisterNativeMethod`; a missing `params.at` key raises
`std::out_of_range` (message modelled as "map::at") and a non-numeric
pointer makes `std::stoull` raise `std::invalid_argument` (message
modelled as "stoull"). -/
def runHandler (h : HandlerCode) (req : APIRequest) (a : APIImpl) :
    HandlerResult × APIImpl :=
  match h with
  | .user f => (f req, a)
  | .getApiLevel =>
      (.ok [{ success := true, data := toString a.target_sdk_level }], a)
  | .checkPermission =>
      match mapFind req.params "permission" with
      | none => (.fault [] "map::at", a)
      | some perm =>
          let granted := perm == "android.permission.INTERNET" ||
            perm == "android.permission.READ_EXTERNAL_STORAGE" ||
            perm == "android.permission.WRITE_EXTERNAL_STORAGE"
          (.ok [{ success := true, data := if granted then "granted" else "denied" }], a)
  | .registerNativeMethod =>
      match mapFind req.params "name" with
      | none => (.fault [] "map::at", a)
      | some nm =>
          match mapFind req.params "pointer" with
          | none => (.fault [] "map::at", a)
          | some ps =>
              match ps.toNat? with
              | none => (.fault [] "stoull", a)
              | some p =>
                  (.ok [{ success := true, data := "Native method registered: " ++ nm }],
                   { a with native_functions := mapSet a.native_functions nm p })

/-- Observable outcome of one `handleRequest` call: the responses
delivered to the request callback in order, and an exception escaping
to the caller (if any). -/
structure CallResult where
  delivered : List APIResponse
  uncaught : Option String
  deriving DecidableEq

/-- `API::Impl::handleRequest`: rejects when uninitialised, then
consults the rate limiter, then dispatches to the handler registry;
a `std::exception` from the handler is caught and converted into a
failure response carrying its message. -/
def handleRequest (a : APIImpl) (req : APIRequest) (now : Nat) :
    CallResult × APIImpl :=
  if a.initialized = false then
    ({ delivered := [{ success := false, error := "API not initialized" }],
       uncaught := none }, a)
  else
    let res := checkRateLimit a.rate now
    let a1 := { a with rate := res.2 }
    if res.1 = false then
      ({ delivered := [{ success := false, error := "Rate limit exceeded" }],
         uncaught := none }, a1)
    else
      match mapFind a.handlers req.method with
      | none =>
          ({ delivered := [{ success := false, error := "Unknown method: " ++ req.method }],
             uncaught := none }, a1)
      | some h =>
          match runHandler h req a1 with
          | (.ok em, a2) => ({ delivered := em, uncaught := none }, a2)
          | (.fault em msg, a2) =>
              ({ delivered := em ++ [{ success := false, error := "Handler error: " ++ msg }],
                 uncaught := none }, a2)

/-! ## Runtime boot and class registry (src/core/runtime.cpp) -/

/-- The `anexec::Result` enumeration from runtime.h. -/
inductive RtResult where
  | Success
  | RuntimeError
  | ClassNotFound
  | MethodNotFound
  | OutOfMemory
  | SecurityException
  deriving DecidableEq

/-- The `anexec::RuntimeState` enumeration from runtime.h. -/
inductive RuntimeState where
  | NotInitialized
  | Ready
  | Running
  | Stopped
  | Error
  deriving DecidableEq

/-- The state-carrying fields of `Runtime::Impl` (config, start time and
the event callback only feed logging and statistics and are not
modelled).  Native-method function pointers are numeric tokens. -/
structure RuntimeImpl where
  state : RuntimeState
  loaded_classes : List String
  native_methods : List (String × Nat)
  user : String
  deriving DecidableEq

/-- The `Runtime::Impl` constructor. -/
def rtMk : RuntimeImpl :=
  { state := RuntimeState.NotInitialized
    loaded_classes := []
    native_methods := []
    user := "AnmiTaliDev" }

/-- `Runtime::Impl::loadClass`: records the class name and reports
success (the body has no failure path; the real loading is a
placeholder comment in the source). -/
def loadClass (r : RuntimeImpl) (className : String) : Bool × RuntimeImpl :=
  (true, { r with loaded_classes := r.loaded_classes ++ [className] })

/-- `Runtime::Impl::startActivity`.  The third component is the
sequence of `Activity` lifecycle callbacks the call drives on a
component instance: the source performs none (the create, onCreate,
onStart and onResume steps are placeholder comments), so the trace is
always empty. -/
def RuntimeImpl.startActivity (r : RuntimeImpl) (activityName : String) :
    RtResult × RuntimeImpl × List LifecycleCall :=
  if r.state != RuntimeState.Ready then (RtResult.RuntimeError, r, [])
  else
    let res := loadClass r activityName
    if res.1 = false then (RtResult.ClassNotFound, res.2, [])
    else (RtResult.Success, { res.2 with state := RuntimeState.Running }, [])

/-- A booted runtime in the `Ready` state, as produced by a successful
`Runtime::Impl::initialize` (which loads the four core classes and
registers the four native-method stubs, all with nullptr tokens). -/
def rtReady : RuntimeImpl :=
  { state := RuntimeState.Ready
    loaded_classes :=
      ["android.app.Activity", "android.content.Context",
       "android.os.Bundle", "android.view.View"]
    native_methods :=
      [("android.os.SystemClock.nativeCurrentTimeMillis", 0),
       ("android.os.SystemClock.nativeElapsedRealtime", 0),
       ("android.graphics.Canvas.nativeCreate", 0),
       ("android.view.Surface.nativeCreateFromSurfaceTexture", 0)]
    user := "AnmiTaliDev" }

/-! ## Package loader (src/core/executor.cpp) -/

/-- The `anexec::Result` enumeration from executor.h (distinct from the
runtime's `Result`). -/
inductive ExecResult where
  | Success
  | InvalidApk
  | RuntimeError
  | SecurityError
  | GraphicsError
  | PermissionDenied
  | UnsupportedApi
  | MemoryError
  | NetworkError
  deriving DecidableEq

/-- The `anexec::ExecutionState` enumeration from executor.h. -/
inductive ExecutionState where
  | NotStarted
  | Loading
  | Running
  | Paused
  | Stopped
  | Error
  deriving DecidableEq

/-- `anexec::ApkInfo` from executor.h.  Paths are strings and the load
timestamp is a natural number. -/
structure ApkInfo where
  package_name : String
  version_name : String
  version_code : Nat
  min_sdk : String
  target_sdk : String
  permissions : List String
  main_activity : String
  apk_path : String
  load_time : Nat
  deriving DecidableEq

/-- The process address space as seen by mmap/munmap: a fresh-address
counter and the list of currently mapped regions.  Addresses 0
(nullptr) and 1 (MAP_FAILED) are reserved, so fresh regions start at
2. -/
structure Heap where
  next_region : Nat
  live : List Nat
  deriving DecidableEq

/-- The value of the MAP_FAILED sentinel, distinct from nullptr. -/
def MAP_FAILED_PTR : Nat := 1

/-- A call to `mmap`: on success returns a fresh region address and
records it as live; on failure returns MAP_FAILED and leaves the heap
unchanged. -/
def mmapAlloc (h : Heap) (ok : Bool) : Nat × Heap :=
  if ok then (h.next_region, { next_region := h.next_region + 1, live := h.live ++ [h.next_region] })
  else (MAP_FAILED_PTR, h)

/-- A call to `munmap p`: unmaps the region at `p` if one is live there;
on any other address it fails with EINVAL, which the source ignores. -/
def munmapCall (h : Heap) (p : Nat) : Heap :=
  { h with live := h.live.filter (fun r => r != p) }

/-- The environment a `loadApk` call runs against: whether the path
resolves to an existing file, whether `zip_open` succeeds, whether
`zip_stat` locates a "classes.dex" entry (and its size), whether the
`mmap` allocation succeeds, and whether `zip_fopen` on the entry
succeeds. -/
structure ApkEnv where
  file_exists : Bool
  zip_opens : Bool
  has_dex : Option Nat
  mmap_ok : Bool
  fopen_ok : Bool
  deriving DecidableEq

/-- The state-carrying fields of `Executor::Impl` (config and the two
callbacks only feed logging and are not modelled).  `dex_data` is the
raw pointer value (0 for nullptr); `dex_copied` records whether the
`zip_fread` that fills the region actually ran — the buffer contents
themselves are not modelled. -/
structure ExecutorImpl where
  apk_info : ApkInfo
  state : ExecutionState
  last_error : String
  is_running : Bool
  dex_data : Nat
  dex_size : Nat
  dex_copied : Bool
  loaded_libs : List Nat
  deriving DecidableEq

/-- The `Executor::Impl` constructor. -/
def execInit : ExecutorImpl :=
  { apk_info :=
      { package_name := "", version_name := "", version_code := 0,
        min_sdk := "", target_sdk := "", permissions := [],
        main_activity := "", apk_path := "", load_time := 0 }
    state := ExecutionState.NotStarted
    last_error := ""
    is_running := false
    dex_data := 0
    dex_size := 0
    dex_copied := false
    loaded_libs := [] }

/-- `Executor::Impl::extractDex`.  Mirrors the source exactly: an
archive that fails to open reports failure; a located entry is sized
and mmapped (an mmap failure leaves `dex_data` holding MAP_FAILED and
reports failure); a `zip_fopen` failure silently skips the read; and an
absent "classes.dex" entry falls through to `return true` without
touching `dex_data`. -/
def extractDex (e : ExecutorImpl) (h : Heap) (env : ApkEnv) :
    Bool × ExecutorImpl × Heap :=
  if env.zip_opens = false then
    (false, { e with last_error := "Failed to open APK file" }, h)
  else
    match env.has_dex with
    | none => (true, e, h)
    | some sz =>
        let e1 := { e with dex_size := sz }
        let m := mmapAlloc h env.mmap_ok
        let e2 := { e1 with dex_data := m.1 }
        if m.1 = MAP_FAILED_PTR then
          (false, { e2 with last_error := "Failed to allocate memory for DEX" }, m.2)
        else if env.fopen_ok then (true, { e2 with dex_copied := true }, m.2)
        else (true, e2, m.2)

/-- The metadata assignments of `Executor::Impl::loadApk`: path and
load time from the call, the remaining identity fields from the
hard-coded test data; the permission list is never written. -/
def loadApkInfoFill (i : ApkInfo) (path : String) (now : Nat) : ApkInfo :=
  { i with
      apk_path := path
      load_time := now
      package_name := "com.example.test"
      version_name := "1.0.0"
      version_code := 1
      min_sdk := "21"
      target_sdk := "33"
      main_activity := "com.example.test.MainActivity" }

/-- `Executor::Impl::loadApk`: enters `Loading`, rejects a missing file
with `InvalidApk` (the spec's InvalidPackage), fills the metadata, runs
`extractDex`, and exits in `Stopped` on success or `Error` on
failure. -/
def loadApk (e : ExecutorImpl) (h : Heap) (env : ApkEnv) (path : String) (now : Nat) :
    ExecResult × ExecutorImpl × Heap :=
  let e0 := { e with state := ExecutionState.Loading }
  if env.file_exists = false then
    (ExecResult.InvalidApk,
     { e0 with last_error := "APK file not found", state := ExecutionState.Error }, h)
  else
    let e1 := { e0 with apk_info := loadApkInfoFill e0.apk_info path now }
    let r := extractDex e1 h env
    if r.1 = false then
      (ExecResult.RuntimeError, { r.2.1 with state := ExecutionState.Error }, r.2.2)
    else
      (ExecResult.Success, { r.2.1 with state := ExecutionState.Stopped }, r.2.2)

/-- `Executor::Impl::~Impl`: munmaps `dex_data` when it is non-null and
dlcloses every held library handle.  Returns the heap after teardown
and the list of handles closed. -/
def teardown (e : ExecutorImpl) (h : Heap) : Heap × List Nat :=
  let h1 := if e.dex_data != 0 then munmapCall h e.dex_data else h
  (h1, e.loaded_libs)

/-- Well-formedness of the address space: reserved addresses are below
every live region and fresh addresses are really fresh. -/
def Heap.wf (h : Heap) : Prop :=
  2 ≤ h.next_region ∧ ∀ r ∈ h.live, 2 ≤ r ∧ r < h.next_region

/-- An empty well-formed address space. -/
def heap0 : Heap := { next_region := 2, live := [] }

/-- Environment for the C1 counterexample: the file exists and the
archive opens, but it contains no "classes.dex" entry. -/
def envNoDex : ApkEnv :=
  { file_exists := true, zip_opens := true, has_dex := none,
    mmap_ok := true, fopen_ok := true }

/-- Environment of a fully successful load: a 100-byte "classes.dex"
entry, with allocation and reading both succeeding. -/
def envGood : ApkEnv :=
  { file_exists := true, zip_opens := true, has_dex := some 100,
    mmap_ok := true, fopen_ok := true }

/-- A handler that always raises, used to witness the fault-conversion
claim. -/
def faultingHandler : APIRequest → HandlerResult :=
  fun _ => HandlerResult.fault [] "boom"

/-- An initialised gateway with `faultingHandler` registered under
"boom". -/
def apiReadyW : APIImpl :=
  registerHandler { apiMk 0 with initialized := true } "boom"
    (HandlerCode.user faultingHandler)

/-- A request for the faulting handler. -/
def reqBoom : APIRequest := { method := "boom", params := [] }

/-! ## Theorems: component lifecycle -/

/-- Each lifecycle method realises exactly the guarded transition of
the spec's section 4.2 table: the state moves to the table's target
when the guard holds and is left unchanged otherwise. -/
theorem applyCall_state (a : ActivityImpl) (c : LifecycleCall) :
    (applyCall a c).state =
      if lifecycleGuardSpec a.state c then lifecycleTargetSpec c else a.state := by
  obtain ⟨pn, an, st, sv, fin, log, ct, foc, ss⟩ := a
  cases c <;> cases st <;> rfl

/-- No lifecycle method touches the finishing flag. -/
theorem applyCall_is_finishing (a : ActivityImpl) (c : LifecycleCall) :
    (applyCall a c).is_finishing = a.is_finishing := by
  obtain ⟨pn, an, st, sv, fin, log, ct, foc, ss⟩ := a
  cases c <;> cases st <;> rfl

/-- A destroyed instance stays destroyed under every lifecycle call. -/
theorem applyCall_destroyed (a : ActivityImpl) (c : LifecycleCall)
    (h : a.state = LifecycleState.Destroyed) :
    (applyCall a c).state = LifecycleState.Destroyed := by
  rw [applyCall_state, h]
  cases c <;> rfl

/-- onDestroy always lands in `Destroyed`. -/
theorem onDestroy_state (a : ActivityImpl) :
    a.onDestroy.state = LifecycleState.Destroyed := by
  obtain ⟨pn, an, st, sv, fin, log, ct, foc, ss⟩ := a
  cases st <;> rfl

/-- onPause preserves the finishing flag. -/
theorem onPause_is_finishing (a : ActivityImpl) :
    a.onPause.is_finishing = a.is_finishing :=
  applyCall_is_finishing a .pause

/-- onStop preserves the finishing flag. -/
theorem onStop_is_finishing (a : ActivityImpl) :
    a.onStop.is_finishing = a.is_finishing :=
  applyCall_is_finishing a .stop

/-- onDestroy preserves the finishing flag. -/
theorem onDestroy_is_finishing (a : ActivityImpl) :
    a.onDestroy.is_finishing = a.is_finishing :=
  applyCall_is_finishing a .destroy

/-- finish always sets the sticky finishing flag (it is already set in
the early-return branch). -/
theorem finish_is_finishing (a : ActivityImpl) :
    a.finish.is_finishing = true := by
  unfold ActivityImpl.finish
  cases hf : a.is_finishing
  · rw [if_neg (by simp [hf])]
    rw [onDestroy_is_finishing, onStop_is_finishing, onPause_is_finishing]
    rfl
  · rw [if_pos rfl]
    exact hf

/-- On instances satisfying the reachability invariant, finish always
lands in `Destroyed`. -/
theorem finish_state (a : ActivityImpl) (hInv : ActInv a) :
    a.finish.state = LifecycleState.Destroyed := by
  unfold ActivityImpl.finish
  cases hf : a.is_finishing
  · rw [if_neg (by simp [hf])]
    exact onDestroy_state _
  · rw [if_pos rfl]
    exact hInv hf

/-- The reachability invariant is preserved by every public
operation. -/
theorem applyOp_inv (a : ActivityImpl) (o : ActivityOp) (h : ActInv a) :
    ActInv (applyOp a o) := by
  cases o with
  | lcall c =>
      intro hf
      have hf2 : (applyCall a c).is_finishing = true := hf
      rw [applyCall_is_finishing] at hf2
      exact applyCall_destroyed a c (h hf2)
  | saveState now => exact h
  | restoreState s => exact h
  | focusChanged f => exact h
  | startNew act => exact h
  | finishCall => exact fun _ => finish_state a h

/-- The reachability invariant holds after any run of public
operations. -/
theorem run_inv (ops : List ActivityOp) :
    ∀ a, ActInv a → ActInv (List.foldl applyOp a ops) := by
  induction ops with
  | nil => exact fun a h => h
  | cons o rest ih => exact fun a h => ih _ (applyOp_inv a o h)

/-- Claim C2: for every finite sequence of lifecycle calls applied to a
component instance starting in `Created`, the lifecycle state only ever
changes along the guarded transition table of spec section 4.2, and a
call whose guard fails leaves the state unchanged rather than
erroring. -/
theorem c2_lifecycle_guarded (calls : List LifecycleCall) (c : LifecycleCall) :
    (applyCall (List.foldl applyCall activityInit calls) c).state =
      if lifecycleGuardSpec (List.foldl applyCall activityInit calls).state c
      then lifecycleTargetSpec c
      else (List.foldl applyCall activityInit calls).state :=
  applyCall_state _ c

/-- Claim C7: from every reachable instance (hence from each of the six
lifecycle states an instance can be in), finish leaves the instance in
state `Destroyed` with the sticky finishing flag set; from `Created`
the re-checked guards make pause and stop no-ops while destroy still
runs. -/
theorem c7_finish_destroys (ops : List ActivityOp) :
    (List.foldl applyOp activityInit ops).finish.state = LifecycleState.Destroyed ∧
    (List.foldl applyOp activityInit ops).finish.is_finishing = true := by
  have hInv : ActInv (List.foldl applyOp activityInit ops) :=
    run_inv ops activityInit (fun hf => absurd hf (by decide))
  exact ⟨finish_state _ hInv, finish_is_finishing _⟩

/-- Claim C9: saving the instance state and immediately restoring that
snapshot on the same instance reproduces the focus flag and the
finishing flag, and neither save nor restore alters the lifecycle
state. -/
theorem c9_save_restore_roundtrip (a : ActivityImpl) (now : Nat) :
    ((a.onSaveInstanceState now).2.onRestoreInstanceState
        (a.onSaveInstanceState now).1).has_window_focus = a.has_window_focus ∧
    ((a.onSaveInstanceState now).2.onRestoreInstanceState
        (a.onSaveInstanceState now).1).is_finishing = a.is_finishing ∧
    (a.onSaveInstanceState now).2.state = a.state ∧
    ((a.onSaveInstanceState now).2.onRestoreInstanceState
        (a.onSaveInstanceState now).1).state = a.state :=
  ⟨rfl, rfl, rfl, rfl⟩

/-- Claim C10: restoring a snapshot changes only the stored snapshot
copy and the window-focus flag (taken from the snapshot), besides
appending the restore record to the lifecycle log; the finishing flag
and the lifecycle state are unchanged, for every snapshot — including
one whose finishing field is true. -/
theorem c10_restore_frame (a : ActivityImpl) (s : SavedState) :
    (a.onRestoreInstanceState s).is_finishing = a.is_finishing ∧
    (a.onRestoreInstanceState s).state = a.state ∧
    a.onRestoreInstanceState s =
      { a with
          saved_state := s
          has_window_focus := s.has_focus
          lifecycle_log := a.lifecycle_log ++
            ["Activity " ++ a.activity_name ++ ": " ++ "Restoring instance state"] } := by
  obtain ⟨pn, an, st, sv, fin, log, ct, foc, ss⟩ := a
  exact ⟨rfl, rfl, rfl⟩

/-! ## Theorems: capability gateway -/

/-- Within one window (no call lets a full second elapse), a run that
stays within capacity admits every call and just counts them, leaving
the window start untouched. -/
theorem rateRun_within_window (w : Nat) :
    ∀ (ts : List Nat) (k : Nat),
      (∀ t ∈ ts, (t - w) / 1000 = 0) →
      k + ts.length ≤ MAX_API_CALLS_PER_SECOND →
      rateRun ⟨k, w⟩ ts = (true, ⟨k + ts.length, w⟩) := by
  intro ts
  induction ts with
  | nil => intro k _ _; rfl
  | cons t rest ih =>
      intro k hin hle
      have ht : (t - w) / 1000 = 0 := hin t (by simp)
      have hk : ¬ k ≥ MAX_API_CALLS_PER_SECOND := by
        simp only [MAX_API_CALLS_PER_SECOND] at hle ⊢
        simp only [List.length_cons] at hle
        omega
      have hstep : checkRateLimit ⟨k, w⟩ t = (true, ⟨k + 1, w⟩) := by
        simp [checkRateLimit, ht, hk]
      have htail := ih (k + 1) (fun u hu => hin u (by simp [hu]))
        (by simp only [List.length_cons] at hle; omega)
      have : rateRun ⟨k, w⟩ (t :: rest) = rateRun ⟨k + 1, w⟩ rest := by
        simp [rateRun, hstep]
      rw [this, htail]
      have : k + 1 + rest.length = k + (t :: rest).length := by
        simp [List.length_cons]; omega
      rw [this]

/-- Claim C3: the gateway rate limiter is a fixed 1-second window of
capacity 1000.  From a fresh window starting at `w`, 1000 calls within
the window are all admitted; a 1001st call within the same window is
rejected without incrementing the counter (the limiter state is
unchanged); and a call after the window has elapsed resets the counter,
restarts the window at that call, and is admitted (counted as 1). -/
theorem c3_rate_limiter (w : Nat) (ts : List Nat) (t1 tn : Nat)
    (hlen : ts.length = 1000)
    (hin : ∀ t ∈ ts, (t - w) / 1000 = 0)
    (h1 : (t1 - w) / 1000 = 0)
    (hn : (tn - w) / 1000 ≥ 1) :
    rateRun ⟨0, w⟩ ts = (true, ⟨1000, w⟩) ∧
    checkRateLimit ⟨1000, w⟩ t1 = (false, ⟨1000, w⟩) ∧
    checkRateLimit ⟨1000, w⟩ tn = (true, ⟨1, tn⟩) := by
  refine ⟨?_, ?_, ?_⟩
  · have h := rateRun_within_window w ts 0 hin
      (by simp [MAX_API_CALLS_PER_SECOND, hlen])
    rw [hlen] at h
    simpa using h
  · simp [checkRateLimit, h1, MAX_API_CALLS_PER_SECOND]
  · simp [checkRateLimit, hn, MAX_API_CALLS_PER_SECOND]

/-- Witness for C3 at a concrete run: 1000 calls at time 0 from a
window starting at 0 are all admitted, the 1001st at time 0 is
rejected without counting, and a call at time 1000 (one second later)
resets and is admitted. -/
theorem c3_rate_limiter_witness :
    (List.replicate 1000 (0 : Nat)).length = 1000 ∧
    (∀ t ∈ List.replicate 1000 (0 : Nat), (t - 0) / 1000 = 0) ∧
    ((0 : Nat) - 0) / 1000 = 0 ∧
    ((1000 : Nat) - 0) / 1000 ≥ 1 ∧
    (rateRun ⟨0, 0⟩ (List.replicate 1000 (0 : Nat)) = (true, ⟨1000, 0⟩) ∧
     checkRateLimit ⟨1000, 0⟩ 0 = (false, ⟨1000, 0⟩) ∧
     checkRateLimit ⟨1000, 0⟩ 1000 = (true, ⟨1, 1000⟩)) :=
  ⟨by rw [List.length_replicate],
   fun t ht => by simp [List.eq_of_mem_replicate ht],
   by decide,
   by decide,
   c3_rate_limiter 0 (List.replicate 1000 (0 : Nat)) 0 1000 (by rw [List.length_replicate])
     (fun t ht => by simp [List.eq_of_mem_replicate ht]) (by decide) (by decide)⟩

/-- Claim C8: before initialize has been called, handleRequest answers
any request, whatever its method and parameters, with exactly one
failure response whose error message is "API not initialized", invokes
no handler, and leaves the whole gateway state unchanged. -/
theorem c8_uninitialized (a : APIImpl) (req : APIRequest) (now : Nat)
    (hinit : a.initialized = false) :
    handleRequest a req now =
      ({ delivered := [{ success := false, error := "API not initialized" }],
         uncaught := none }, a) := by
  unfold handleRequest
  rw [if_pos hinit]

/-- Witness for C8: the freshly constructed gateway rejects a
"getApiLevel" request with the fixed failure message. -/
theorem c8_uninitialized_witness :
    (apiMk 0).initialized = false ∧
    handleRequest (apiMk 0) { method := "getApiLevel", params := [] } 7 =
      ({ delivered := [{ success := false, error := "API not initialized" }],
         uncaught := none }, apiMk 0) :=
  ⟨rfl, c8_uninitialized (apiMk 0) { method := "getApiLevel", params := [] } 7 rfl⟩

/-- Claim C6: on an initialised gateway, when an admitted request
reaches a registered handler and that handler raises a fault, the fault
is caught: the request callback receives (after anything the handler
already delivered) a failure response carrying the fault message, and
no exception escapes handleRequest. -/
theorem c6_handler_fault (a : APIImpl) (req : APIRequest) (now : Nat)
    (h : HandlerCode) (em : List APIResponse) (msg : String) (a2 : APIImpl)
    (hinit : a.initialized = true)
    (hpass : (checkRateLimit a.rate now).1 = true)
    (hfind : mapFind a.handlers req.method = some h)
    (hrun : runHandler h req { a with rate := (checkRateLimit a.rate now).2 } =
      (HandlerResult.fault em msg, a2)) :
    handleRequest a req now =
      ({ delivered := em ++ [{ success := false, error := "Handler error: " ++ msg }],
         uncaught := none }, a2) := by
  rw [hinit] at hrun
  simp only [handleRequest, hinit, hpass, hfind, hrun]
  simp

/-- Witness for C6: a user handler registered under "boom" that always
faults with message "boom" is converted into a failure response, and
nothing escapes. -/
theorem c6_handler_fault_witness :
    apiReadyW.initialized = true ∧
    (checkRateLimit apiReadyW.rate 0).1 = true ∧
    mapFind apiReadyW.handlers "boom" = some (HandlerCode.user faultingHandler) ∧
    handleRequest apiReadyW reqBoom 0 =
      ({ delivered := [] ++ [{ success := false, error := "Handler error: " ++ "boom" }],
         uncaught := none },
       { apiReadyW with rate := (checkRateLimit apiReadyW.rate 0).2 }) :=
  ⟨rfl, rfl, rfl,
   c6_handler_fault apiReadyW reqBoom 0 (HandlerCode.user faultingHandler) [] "boom"
     { apiReadyW with rate := (checkRateLimit apiReadyW.rate 0).2 } rfl rfl rfl rfl⟩

/-! ## Theorems: runtime startActivity -/

/-- Claim C5, evaluated at the failing input: with the runtime `Ready`,
startActivity on the main activity returns Success, records the class,
and moves the state to Running — but drives no component lifecycle
calls at all (the trace is empty instead of create, start, resume):
the create, onCreate, onStart and onResume steps exist in the source
only as placeholder comments. -/
theorem c5_code_eval :
    (rtReady.startActivity "com.example.test.MainActivity").1 = RtResult.Success ∧
    (rtReady.startActivity "com.example.test.MainActivity").2.1.state = RuntimeState.Running ∧
    (rtReady.startActivity "com.example.test.MainActivity").2.2 = [] ∧
    ¬ (rtReady.startActivity "com.example.test.MainActivity").2.2 =
        [LifecycleCall.create, LifecycleCall.start, LifecycleCall.resume] := by
  refine ⟨rfl, rfl, rfl, ?_⟩
  intro hcon
  exact absurd hcon (by decide)

/-! ## Theorems: package loader -/

/-- Removing the reserved MAP_FAILED address from a list of real region
addresses is the identity. -/
theorem filter_ne_map_failed (l : List Nat) (h : ∀ r ∈ l, 2 ≤ r) :
    l.filter (fun r => r != 1) = l := by
  rw [List.filter_eq_self]
  intro r hr
  have := h r hr
  simp only [bne_iff_ne, ne_eq]
  omega

/-- Claim C4: for every environment — hence on every exit path of a
load attempt, successful or failed, whatever the resulting
`ExecutionState` — teardown returns the address space to exactly its
pre-load set of live regions (any region the load mapped is unmapped,
none is leaked, and the harmless munmap of MAP_FAILED after an
allocation failure removes nothing), and teardown closes every held
native-library handle. -/
theorem c4_teardown (h0 : Heap) (env : ApkEnv) (path : String) (now : Nat)
    (hwf : h0.wf) :
    (teardown (loadApk execInit h0 env path now).2.1
       (loadApk execInit h0 env path now).2.2).1.live = h0.live ∧
    (∀ (e : ExecutorImpl) (h : Heap), (teardown e h).2 = e.loaded_libs) := by
  refine ⟨?_, fun e h => rfl⟩
  obtain ⟨hnext, hlive⟩ := hwf
  obtain ⟨fe, zo, hd, mo, fo⟩ := env
  cases fe
  · rfl
  cases zo
  · rfl
  cases hd with
  | none => rfl
  | some sz =>
      cases mo
      · -- mmap fails: dex_data holds MAP_FAILED; munmap of it is a no-op
        show (h0.live.filter (fun r => r != 1)) = h0.live
        exact filter_ne_map_failed h0.live (fun r hr => (hlive r hr).1)
      · -- mmap succeeds: the fresh region is unmapped again, the rest survive
        have hne : ¬ h0.next_region = MAP_FAILED_PTR := by
          show ¬ h0.next_region = 1
          omega
        have hne0 : (h0.next_region != 0) = true := by
          simp only [bne_iff_ne, ne_eq]; omega
        cases fo <;>
        · simp [loadApk, extractDex, mmapAlloc, teardown, munmapCall, hne, hne0]
          intro r hr
          have := (hlive r hr).2
          omega

/-- Witness for C4 on a fully successful load: the mapped dex region is
released by teardown (the heap returns to empty) and every held library
handle is closed. -/
theorem c4_teardown_witness :
    heap0.wf ∧
    ((teardown (loadApk execInit heap0 envGood "app.apk" 0).2.1
        (loadApk execInit heap0 envGood "app.apk" 0).2.2).1.live = heap0.live ∧
     (teardown (loadApk execInit heap0 envGood "app.apk" 0).2.1
        (loadApk execInit heap0 envGood "app.apk" 0).2.2).2 =
       (loadApk execInit heap0 envGood "app.apk" 0).2.1.loaded_libs) :=
  ⟨⟨by decide, by decide⟩,
   (c4_teardown heap0 envGood "app.apk" 0 ⟨by decide, by decide⟩).1,
   (c4_teardown heap0 envGood "app.apk" 0 ⟨by decide, by decide⟩).2
     (loadApk execInit heap0 envGood "app.apk" 0).2.1
     (loadApk execInit heap0 envGood "app.apk" 0).2.2⟩

/-- Claim C1, as stated, is false at a concrete input: with an existing
file whose archive opens but contains no "classes.dex" entry, loadApk
returns Success with a null bytecode region, instead of the claimed
RuntimeError (and the claimed Success-implies-non-null also fails). -/
theorem c1_counterexample :
    ¬ ((envNoDex.file_exists = false →
          (loadApk execInit heap0 envNoDex "app.apk" 0).1 = ExecResult.InvalidApk) ∧
       (envNoDex.has_dex = none →
          (loadApk execInit heap0 envNoDex "app.apk" 0).1 = ExecResult.RuntimeError) ∧
       ((loadApk execInit heap0 envNoDex "app.apk" 0).1 = ExecResult.Success →
          ¬ (loadApk execInit heap0 envNoDex "app.apk" 0).2.1.dex_data = 0)) := by
  intro hclaim
  exact absurd (hclaim.2.1 rfl) (by decide)

/-- Claim C1 amended: a missing file yields InvalidApk; a failing
zip_open, or a failing mmap for a located entry, yields RuntimeError
with state Error; but an absent "classes.dex" entry — and likewise an
entry whose zip_fopen fails — still yields Success (with a null region,
respectively an unfilled one).  On every Success the metadata fields
are populated from the call and the fixed test data (the permission
list stays empty). -/
theorem c1_load_amended (h0 : Heap) (env : ApkEnv) (path : String) (now : Nat)
    (hwf : 2 ≤ h0.next_region) :
    (env.file_exists = false →
       (loadApk execInit h0 env path now).1 = ExecResult.InvalidApk ∧
       (loadApk execInit h0 env path now).2.1.state = ExecutionState.Error) ∧
    (env.file_exists = true → env.zip_opens = false →
       (loadApk execInit h0 env path now).1 = ExecResult.RuntimeError ∧
       (loadApk execInit h0 env path now).2.1.state = ExecutionState.Error) ∧
    (env.file_exists = true → env.zip_opens = true → env.mmap_ok = false →
       env.has_dex.isSome = true →
       (loadApk execInit h0 env path now).1 = ExecResult.RuntimeError ∧
       (loadApk execInit h0 env path now).2.1.state = ExecutionState.Error) ∧
    (env.file_exists = true → env.zip_opens = true → env.has_dex = none →
       (loadApk execInit h0 env path now).1 = ExecResult.Success ∧
       (loadApk execInit h0 env path now).2.1.dex_data = 0 ∧
       (loadApk execInit h0 env path now).2.1.state = ExecutionState.Stopped ∧
       (loadApk execInit h0 env path now).2.1.apk_info =
         loadApkInfoFill execInit.apk_info path now) ∧
    (env.file_exists = true → env.zip_opens = true → env.mmap_ok = true →
       env.has_dex.isSome = true →
       (loadApk execInit h0 env path now).1 = ExecResult.Success ∧
       ¬ (loadApk execInit h0 env path now).2.1.dex_data = 0 ∧
       (loadApk execInit h0 env path now).2.1.dex_copied = env.fopen_ok ∧
       (loadApk execInit h0 env path now).2.1.state = ExecutionState.Stopped ∧
       (loadApk execInit h0 env path now).2.1.apk_info =
         loadApkInfoFill execInit.apk_info path now) := by
  obtain ⟨fe, zo, hd, mo, fo⟩ := env
  refine ⟨?_, ?_, ?_, ?_, ?_⟩
  · intro hfe
    subst hfe
    exact ⟨rfl, rfl⟩
  · intro hfe hzo
    subst hfe; subst hzo
    exact ⟨rfl, rfl⟩
  · intro hfe hzo hmo hsome
    subst hfe; subst hzo; subst hmo
    cases hd with
    | none => exact Bool.noConfusion hsome
    | some sz => exact ⟨rfl, rfl⟩
  · intro hfe hzo hnone
    subst hfe; subst hzo
    cases hnone
    exact ⟨rfl, rfl, rfl, rfl⟩
  · intro hfe hzo hmo hsome
    subst hfe; subst hzo; subst hmo
    cases hd with
    | none => exact Bool.noConfusion hsome
    | some sz =>
        have hne : ¬ h0.next_region = MAP_FAILED_PTR := by
          show ¬ h0.next_region = 1
          omega
        cases fo
        · simp [loadApk, extractDex, mmapAlloc, hne]
          exact ⟨by omega, rfl⟩
        · simp [loadApk, extractDex, mmapAlloc, hne]
          omega

/-- Witness for the amended C1 on a fully successful load: Success with
a mapped (non-null) region, the payload read, and the metadata
populated. -/
theorem c1_load_amended_witness :
    2 ≤ heap0.next_region ∧
    ((loadApk execInit heap0 envGood "app.apk" 0).1 = ExecResult.Success ∧
     ¬ (loadApk execInit heap0 envGood "app.apk" 0).2.1.dex_data = 0 ∧
     (loadApk execInit heap0 envGood "app.apk" 0).2.1.dex_copied = envGood.fopen_ok ∧
     (loadApk execInit heap0 envGood "app.apk" 0).2.1.state = ExecutionState.Stopped ∧
     (loadApk execInit heap0 envGood "app.apk" 0).2.1.apk_info =
       loadApkInfoFill execInit.apk_info "app.apk" 0) :=
  ⟨by decide,
   (c1_load_amended heap0 envGood "app.apk" 0 (by decide)).2.2.2.2
     rfl rfl rfl rfl⟩

end Anexec
